import Mathlib

/-!
Shallow embedding of the predict-chat on-chain program
(src/programs/predict-chat-program/src/lib.rs).

Accounts are modelled as records carrying an address (`key`), an owning
program (`owner`) and a mutable byte buffer (`data`); bytes are `Nat`
values, with validity (`< 256`) tracked by explicit predicates where the
borsh codec round-trip needs it.  The Solana `Clock` sysvar is injected as
an explicit `slot : Nat` argument, as the handlers only read `clock.slot`.
Each handler returns the possibly-raised `ProgramError` together with the
post-state of its account list, so that theorems can speak about which
bytes were written on each path.  Borsh serialization into a fixed `&mut
[u8]` buffer is modelled by `serAttempt`, which (like `write_all`) copies
the prefix that fits and fails if the buffer is too short.
-/

set_option maxRecDepth 100000

namespace PredictChat

/-- Solana public key: 32 raw bytes (modelled as a byte list; concrete keys
used in witnesses always have length 32). -/
abbrev Pubkey := List Nat

/-- The program's own error enum, in declaration order (`lib.rs` lines 15-29). -/
inductive PredictChatError where
  | InvalidOwner
  | AlreadyInitialized
  | AlreadySettled
  | NotExpired
  | InvalidRoom
  | OracleDataTooSmall
deriving DecidableEq, Repr

/-- The `value as u32` cast used by `impl From<PredictChatError> for ProgramError`. -/
def PredictChatError.toU32 : PredictChatError → Nat
  | .InvalidOwner => 0
  | .AlreadyInitialized => 1
  | .AlreadySettled => 2
  | .NotExpired => 3
  | .InvalidRoom => 4
  | .OracleDataTooSmall => 5

/-- The subset of `solana_program::ProgramError` values this program can produce. -/
inductive ProgError where
  | Custom (code : Nat)
  | InvalidInstructionData
  | NotEnoughAccountKeys
  | BorshIoError
deriving DecidableEq, Repr

/-- `PredictChatError::X.into()`: wrap the enum's u32 code as a custom program error. -/
def pcErr (e : PredictChatError) : ProgError := .Custom e.toU32

/-- Little-endian bytes of a u64 (`to_le_bytes`). -/
def u64ToLe (n : Nat) : List Nat :=
  [n % 256, n / 2 ^ 8 % 256, n / 2 ^ 16 % 256, n / 2 ^ 24 % 256,
   n / 2 ^ 32 % 256, n / 2 ^ 40 % 256, n / 2 ^ 48 % 256, n / 2 ^ 56 % 256]

/-- Value of a little-endian byte list (`from_le_bytes` on the unsigned view). -/
def leToU64 (bs : List Nat) : Nat :=
  bs.foldr (fun b acc => b + 256 * acc) 0

/-- Little-endian bytes of an i64, two's complement (`i64::to_le_bytes`). -/
def i64ToLe (i : Int) : List Nat :=
  u64ToLe (i % (2 ^ 64 : Int)).toNat

/-- `i64::from_le_bytes`: read the unsigned value and reinterpret in two's complement. -/
def leToI64 (bs : List Nat) : Int :=
  if leToU64 bs < 2 ^ 63 then (leToU64 bs : Int) else (leToU64 bs : Int) - 2 ^ 64

/-- Borsh encoding of a `bool` (one byte, 0 or 1). -/
def boolByte (b : Bool) : Nat := if b then 1 else 0

/-- `RoomState` (`lib.rs` lines 37-44). -/
structure RoomState where
  authority : Pubkey
  oracle_feed : Pubkey
  staking_mint : Pubkey
  stake_vault : Pubkey
  bump : Nat
deriving DecidableEq, Repr

/-- `PredictionState` (`lib.rs` lines 46-55). -/
structure PredictionState where
  user : Pubkey
  room : Pubkey
  predicted_price : Int
  expiry_slot : Nat
  stake : Nat
  resolved : Bool
  won : Bool
deriving DecidableEq, Repr

/-- Borsh serialization of `RoomState`: the four 32-byte keys then the bump byte. -/
def serializeRoomState (r : RoomState) : List Nat :=
  r.authority ++ r.oracle_feed ++ r.staking_mint ++ r.stake_vault ++ [r.bump]

/-- Borsh serialization of `PredictionState`: two keys, i64, u64, u64, two bool bytes. -/
def serializePredictionState (p : PredictionState) : List Nat :=
  p.user ++ p.room ++ i64ToLe p.predicted_price ++ u64ToLe p.expiry_slot ++
    u64ToLe p.stake ++ [boolByte p.resolved] ++ [boolByte p.won]

/-- Borsh reader: take exactly `n` bytes, failing on a short buffer. -/
def readBytes (n : Nat) (bs : List Nat) : Option (List Nat × List Nat) :=
  if n ≤ bs.length then some (bs.take n, bs.drop n) else none

/-- Borsh reader for a single `u8`. -/
def readU8 (bs : List Nat) : Option (Nat × List Nat) :=
  match bs with
  | b :: rest => some (b, rest)
  | [] => none

/-- Borsh reader for a `bool`: one byte that must be 0 or 1. -/
def readBool (bs : List Nat) : Option (Bool × List Nat) :=
  match bs with
  | 0 :: rest => some (false, rest)
  | 1 :: rest => some (true, rest)
  | _ => none

/-- `RoomState::try_from_slice`: sequential borsh reads, then the buffer must be
exactly consumed. -/
def deserializeRoomState (bs : List Nat) : Option RoomState := do
  let (authority, bs) ← readBytes 32 bs
  let (oracle_feed, bs) ← readBytes 32 bs
  let (staking_mint, bs) ← readBytes 32 bs
  let (stake_vault, bs) ← readBytes 32 bs
  let (bump, bs) ← readU8 bs
  if bs.isEmpty then
    some { authority := authority, oracle_feed := oracle_feed,
           staking_mint := staking_mint, stake_vault := stake_vault, bump := bump }
  else none

/-- `PredictionState::try_from_slice`: sequential borsh reads, then the buffer
must be exactly consumed. -/
def deserializePredictionState (bs : List Nat) : Option PredictionState := do
  let (user, bs) ← readBytes 32 bs
  let (room, bs) ← readBytes 32 bs
  let (price, bs) ← readBytes 8 bs
  let (expiry, bs) ← readBytes 8 bs
  let (stake, bs) ← readBytes 8 bs
  let (resolved, bs) ← readBool bs
  let (won, bs) ← readBool bs
  if bs.isEmpty then
    some { user := user, room := room, predicted_price := leToI64 price,
           expiry_slot := leToU64 expiry, stake := leToU64 stake,
           resolved := resolved, won := won }
  else none

/-- A well-formed public key: 32 bytes, each below 256. -/
def PkValid (k : Pubkey) : Prop :=
  k.length = 32 ∧ ∀ b ∈ k, b < 256

/-- A `RoomState` value representable by the Rust struct. -/
def RoomState.Valid (r : RoomState) : Prop :=
  PkValid r.authority ∧ PkValid r.oracle_feed ∧ PkValid r.staking_mint ∧
    PkValid r.stake_vault ∧ r.bump < 256

/-- A `PredictionState` value representable by the Rust struct. -/
def PredictionState.Valid (p : PredictionState) : Prop :=
  PkValid p.user ∧ PkValid p.room ∧
    -(2 ^ 63) ≤ p.predicted_price ∧ p.predicted_price < 2 ^ 63 ∧
    p.expiry_slot < 2 ^ 64 ∧ p.stake < 2 ^ 64

/-- Every entry of a byte buffer is an actual byte. -/
def ByteListValid (bs : List Nat) : Prop :=
  ∀ b ∈ bs, b < 256

/-- The slice of `solana_program::AccountInfo` the handlers use:
address, owning program, and the account's byte buffer. -/
structure AccountInfo where
  key : Pubkey
  owner : Pubkey
  data : List Nat
deriving DecidableEq, Repr

/-- Borsh `serialize(&mut &mut data[..])`: `write_all` into a fixed slice copies
the prefix that fits and fails with an I/O error when the buffer is too short,
leaving any following bytes of the buffer untouched on success. -/
def serAttempt (src buf : List Nat) : Option ProgError × List Nat :=
  if src.length ≤ buf.length then (none, src ++ buf.drop src.length)
  else (some .BorshIoError, src.take buf.length)

/-- `process_initialize_room` (`lib.rs` lines 97-129).  Accounts expected in
order: room account, authority.  Returns the raised error (if any) together
with the post-state of the account list. -/
def process_initialize_room (program_id : Pubkey) (accounts : List AccountInfo)
    (oracle_feed staking_mint stake_vault : Pubkey) (bump : Nat) :
    Option ProgError × List AccountInfo :=
  match accounts with
  | room_account :: authority :: rest =>
    if room_account.owner ≠ program_id then
      (some (pcErr .InvalidOwner), room_account :: authority :: rest)
    else if !room_account.data.isEmpty then
      (some (pcErr .AlreadyInitialized), room_account :: authority :: rest)
    else
      let room_state : RoomState :=
        { authority := authority.key, oracle_feed := oracle_feed,
          staking_mint := staking_mint, stake_vault := stake_vault, bump := bump }
      let w := serAttempt (serializeRoomState room_state) room_account.data
      (w.1, { room_account with data := w.2 } :: authority :: rest)
  | other => (some .NotEnoughAccountKeys, other)

/-- `process_stake_and_commit` (`lib.rs` lines 131-174).  Accounts expected in
order: prediction account, user, room account. -/
def process_stake_and_commit (program_id : Pubkey) (accounts : List AccountInfo)
    (predicted_price : Int) (expiry_slot stake : Nat) :
    Option ProgError × List AccountInfo :=
  match accounts with
  | prediction_account :: user :: room_account :: rest =>
    if prediction_account.owner ≠ program_id then
      (some (pcErr .InvalidOwner), prediction_account :: user :: room_account :: rest)
    else if room_account.owner ≠ program_id then
      (some (pcErr .InvalidOwner), prediction_account :: user :: room_account :: rest)
    else if !prediction_account.data.isEmpty then
      (some (pcErr .AlreadyInitialized), prediction_account :: user :: room_account :: rest)
    else
      match deserializeRoomState room_account.data with
      | none => (some .BorshIoError, prediction_account :: user :: room_account :: rest)
      | some _room_state =>
        let prediction_state : PredictionState :=
          { user := user.key, room := room_account.key,
            predicted_price := predicted_price, expiry_slot := expiry_slot,
            stake := stake, resolved := false, won := false }
        let w := serAttempt (serializePredictionState prediction_state) prediction_account.data
        (w.1, { prediction_account with data := w.2 } :: user :: room_account :: rest)
  | other => (some .NotEnoughAccountKeys, other)

/-- `process_settle_prediction` (`lib.rs` lines 176-224).  Accounts expected in
order: prediction account, room account, oracle price account; `slot` is the
injected `Clock::get()?.slot`. -/
def process_settle_prediction (program_id : Pubkey) (accounts : List AccountInfo)
    (slot : Nat) : Option ProgError × List AccountInfo :=
  match accounts with
  | prediction_account :: room_account :: oracle_price_account :: rest =>
    if prediction_account.owner ≠ program_id ∨ room_account.owner ≠ program_id then
      (some (pcErr .InvalidOwner),
        prediction_account :: room_account :: oracle_price_account :: rest)
    else
      match deserializePredictionState prediction_account.data with
      | none => (some .BorshIoError,
          prediction_account :: room_account :: oracle_price_account :: rest)
      | some prediction_state =>
        match deserializeRoomState room_account.data with
        | none => (some .BorshIoError,
            prediction_account :: room_account :: oracle_price_account :: rest)
        | some _room_state =>
          if prediction_state.resolved then
            (some (pcErr .AlreadySettled),
              prediction_account :: room_account :: oracle_price_account :: rest)
          else if prediction_state.room ≠ room_account.key then
            (some (pcErr .InvalidRoom),
              prediction_account :: room_account :: oracle_price_account :: rest)
          else if slot < prediction_state.expiry_slot then
            (some (pcErr .NotExpired),
              prediction_account :: room_account :: oracle_price_account :: rest)
          else if oracle_price_account.data.length < 8 then
            (some (pcErr .OracleDataTooSmall),
              prediction_account :: room_account :: oracle_price_account :: rest)
          else
            let observed_price := leToI64 (oracle_price_account.data.take 8)
            let newState : PredictionState :=
              { prediction_state with
                  won := decide (observed_price ≥ prediction_state.predicted_price),
                  resolved := true }
            let w := serAttempt (serializePredictionState newState) prediction_account.data
            (w.1, { prediction_account with data := w.2 }
              :: room_account :: oracle_price_account :: rest)
  | other => (some .NotEnoughAccountKeys, other)

/-! Codec lemmas. -/

theorem readBytes_eq_some {n : Nat} {bs x r : List Nat}
    (h : readBytes n bs = some (x, r)) :
    n ≤ bs.length ∧ x = bs.take n ∧ r = bs.drop n := by
  unfold readBytes at h
  split at h
  · obtain ⟨h1, h2⟩ := Prod.mk.injEq _ _ _ _ ▸ Option.some.injEq _ _ ▸ h
    exact ⟨by assumption, h1.symm, h2.symm⟩
  · exact absurd h (by simp)

theorem readBytes_append {n : Nat} {xs : List Nat} (rest : List Nat)
    (h : xs.length = n) : readBytes n (xs ++ rest) = some (xs, rest) := by
  subst h
  simp [readBytes, List.take_left, List.drop_left]

theorem readBool_eq_some {bs r : List Nat} {b : Bool}
    (h : readBool bs = some (b, r)) : bs = boolByte b :: r := by
  unfold readBool at h
  match bs, h with
  | 0 :: rest, h =>
    obtain ⟨h1, h2⟩ := Prod.mk.injEq _ _ _ _ ▸ Option.some.injEq _ _ ▸ h
    simp [← h1, ← h2, boolByte]
  | 1 :: rest, h =>
    obtain ⟨h1, h2⟩ := Prod.mk.injEq _ _ _ _ ▸ Option.some.injEq _ _ ▸ h
    simp [← h1, ← h2, boolByte]

theorem readBool_boolByte (b : Bool) (rest : List Nat) :
    readBool (boolByte b :: rest) = some (b, rest) := by
  cases b <;> simp [boolByte, readBool]

theorem u64ToLe_length (n : Nat) : (u64ToLe n).length = 8 := by
  simp [u64ToLe]

theorem i64ToLe_length (i : Int) : (i64ToLe i).length = 8 := by
  simp [i64ToLe, u64ToLe_length]

theorem u64ToLe_bytes {n : Nat} : ∀ b ∈ u64ToLe n, b < 256 := by
  intro b hb
  simp only [u64ToLe, List.mem_cons, List.not_mem_nil, or_false] at hb
  rcases hb with h | h | h | h | h | h | h | h <;> subst h <;>
    exact Nat.mod_lt _ (by norm_num)

theorem leToU64_u64ToLe {n : Nat} (h : n < 2 ^ 64) :
    leToU64 (u64ToLe n) = n := by
  simp only [u64ToLe, leToU64, List.foldr]
  norm_num
  omega

theorem leToU64_lt {bs : List Nat} (h : ∀ b ∈ bs, b < 256) :
    leToU64 bs < 256 ^ bs.length := by
  induction bs with
  | nil => simp [leToU64]
  | cons b t ih =>
    have hb : b < 256 := h b (by simp)
    have ht : leToU64 t < 256 ^ t.length := ih (fun x hx => h x (by simp [hx]))
    have : leToU64 (b :: t) = b + 256 * leToU64 t := by simp [leToU64]
    rw [this]
    calc b + 256 * leToU64 t < 256 + 256 * leToU64 t := by omega
      _ = 256 * (leToU64 t + 1) := by ring
      _ ≤ 256 * 256 ^ t.length := by
          exact Nat.mul_le_mul_left _ (Nat.succ_le_of_lt ht)
      _ = 256 ^ (b :: t).length := by rw [List.length_cons, pow_succ]; ring

theorem leToU64_lt_of_len8 {bs : List Nat} (hlen : bs.length = 8)
    (h : ∀ b ∈ bs, b < 256) : leToU64 bs < 2 ^ 64 := by
  have := leToU64_lt h
  rw [hlen] at this
  norm_num at this
  exact this

theorem leToI64_i64ToLe {i : Int} (h1 : -(2 ^ 63) ≤ i) (h2 : i < 2 ^ 63) :
    leToI64 (i64ToLe i) = i := by
  have hnn : (0 : Int) ≤ i % 2 ^ 64 := Int.emod_nonneg _ (by norm_num)
  have hlt : i % 2 ^ 64 < 2 ^ 64 := Int.emod_lt_of_pos _ (by norm_num)
  have htn : (i % 2 ^ 64).toNat < 2 ^ 64 := by omega
  unfold i64ToLe leToI64
  rw [leToU64_u64ToLe htn]
  split <;> omega

theorem leToI64_range {bs : List Nat} (hlen : bs.length = 8)
    (h : ∀ b ∈ bs, b < 256) :
    -(2 ^ 63) ≤ leToI64 bs ∧ leToI64 bs < 2 ^ 63 := by
  have hu : leToU64 bs < 2 ^ 64 := leToU64_lt_of_len8 hlen h
  unfold leToI64
  split <;> constructor <;> omega

/-! Round-trip lemmas for the two persisted entities. -/

theorem deserialize_serialize_room {r : RoomState} (h : r.Valid) :
    deserializeRoomState (serializeRoomState r) = some r := by
  obtain ⟨⟨ha, _⟩, ⟨ho, _⟩, ⟨hm, _⟩, ⟨hv, _⟩, hb⟩ := h
  unfold serializeRoomState deserializeRoomState
  simp only [List.append_assoc]
  rw [readBytes_append _ ha]
  simp only [Option.bind_eq_bind, Option.some_bind]
  rw [readBytes_append _ ho]
  simp only [Option.some_bind]
  rw [readBytes_append _ hm]
  simp only [Option.some_bind]
  rw [readBytes_append _ hv]
  simp only [Option.some_bind]
  simp [readU8]

theorem deserialize_serialize_prediction {p : PredictionState} (h : p.Valid) :
    deserializePredictionState (serializePredictionState p) = some p := by
  obtain ⟨⟨hu, _⟩, ⟨hr, _⟩, hp1, hp2, he, hs⟩ := h
  unfold serializePredictionState deserializePredictionState
  simp only [List.append_assoc]
  rw [readBytes_append _ hu]
  simp only [Option.bind_eq_bind, Option.some_bind]
  rw [readBytes_append _ hr]
  simp only [Option.some_bind]
  rw [readBytes_append _ (i64ToLe_length p.predicted_price)]
  simp only [Option.some_bind]
  rw [readBytes_append _ (u64ToLe_length p.expiry_slot)]
  simp only [Option.some_bind]
  rw [readBytes_append _ (u64ToLe_length p.stake)]
  simp only [Option.some_bind]
  rw [show [boolByte p.resolved] ++ [boolByte p.won] =
        boolByte p.resolved :: [boolByte p.won] from rfl,
      readBool_boolByte]
  simp only [Option.some_bind]
  rw [readBool_boolByte]
  simp only [Option.some_bind, List.isEmpty_nil, if_true]
  rw [leToI64_i64ToLe hp1 hp2, leToU64_u64ToLe he, leToU64_u64ToLe hs]

theorem serializePredictionState_length (p : PredictionState) :
    (serializePredictionState p).length = p.user.length + p.room.length + 26 := by
  simp [serializePredictionState, u64ToLe_length, i64ToLe_length]
  omega

theorem serializeRoomState_length (r : RoomState) :
    (serializeRoomState r).length =
      r.authority.length + r.oracle_feed.length + r.staking_mint.length +
        r.stake_vault.length + 1 := by
  simp [serializeRoomState]
  omega

/-- Inverting a successful `PredictionState::try_from_slice`: the buffer is
exactly 90 bytes and every field is read from its fixed offset. -/
theorem deserializePredictionState_inv {bs : List Nat} {p : PredictionState}
    (h : deserializePredictionState bs = some p) :
    bs.length = 90 ∧ p.user = bs.take 32 ∧ p.room = (bs.drop 32).take 32 ∧
      p.predicted_price = leToI64 ((bs.drop 64).take 8) ∧
      p.expiry_slot = leToU64 ((bs.drop 72).take 8) ∧
      p.stake = leToU64 ((bs.drop 80).take 8) := by
  unfold deserializePredictionState at h
  simp only [Option.bind_eq_bind, Option.bind_eq_some] at h
  obtain ⟨⟨user, bs1⟩, h1, h⟩ := h
  obtain ⟨⟨room, bs2⟩, h2, h⟩ := h
  obtain ⟨⟨price, bs3⟩, h3, h⟩ := h
  obtain ⟨⟨expiry, bs4⟩, h4, h⟩ := h
  obtain ⟨⟨stakeBytes, bs5⟩, h5, h⟩ := h
  obtain ⟨⟨resolvedBit, bs6⟩, h6, h⟩ := h
  obtain ⟨⟨wonBit, bs7⟩, h7, h⟩ := h
  obtain ⟨hL1, hu, hb1⟩ := readBytes_eq_some h1
  obtain ⟨hL2, hr, hb2⟩ := readBytes_eq_some h2
  obtain ⟨hL3, hp, hb3⟩ := readBytes_eq_some h3
  obtain ⟨hL4, he, hb4⟩ := readBytes_eq_some h4
  obtain ⟨hL5, hs, hb5⟩ := readBytes_eq_some h5
  subst hb1 hb2 hb3 hb4 hb5
  simp only [List.drop_drop] at *
  norm_num at *
  have hc6 := readBool_eq_some h6
  have hc7 := readBool_eq_some h7
  obtain ⟨hbs7, hrec⟩ := h
  have hlen : bs.length = 90 := by
    have h2len : (bs.drop 88).length = 2 := by
      rw [hc6, hc7, hbs7]
      simp
    simp only [List.length_drop] at h2len
    omega
  subst hrec
  exact ⟨hlen, by simp [hu], by simp [hr], by simp [hp], by simp [he], by simp [hs]⟩

/-- A state decoded from a well-formed byte buffer is representable. -/
theorem deserializePredictionState_valid {bs : List Nat} {p : PredictionState}
    (hb : ByteListValid bs) (h : deserializePredictionState bs = some p) :
    p.Valid := by
  obtain ⟨hlen, hu, hr, hp, he, hs⟩ := deserializePredictionState_inv h
  have huser : ∀ b ∈ p.user, b < 256 := by
    intro b hbm
    exact hb b (List.take_subset _ _ (hu ▸ hbm))
  have hroom : ∀ b ∈ p.room, b < 256 := by
    intro b hbm
    exact hb b (List.drop_subset _ _ (List.take_subset _ _ (hr ▸ hbm)))
  have hchunk : ∀ k, k + 8 ≤ 90 →
      ((bs.drop k).take 8).length = 8 ∧ ∀ b ∈ (bs.drop k).take 8, b < 256 := by
    intro k hk
    constructor
    · simp [hlen]
      omega
    · intro b hbm
      exact hb b (List.drop_subset _ _ (List.take_subset _ _ hbm))
  obtain ⟨hpl, hpb⟩ := hchunk 64 (by omega)
  obtain ⟨hel, heb⟩ := hchunk 72 (by omega)
  obtain ⟨hsl, hsb⟩ := hchunk 80 (by omega)
  obtain ⟨hlow, hhigh⟩ := leToI64_range hpl hpb
  refine ⟨⟨?_, huser⟩, ⟨?_, hroom⟩, ?_, ?_, ?_, ?_⟩
  · rw [hu]; simp [hlen]
  · rw [hr]; simp [hlen]
  · rw [hp]; exact hlow
  · rw [hp]; exact hhigh
  · rw [he]; exact leToU64_lt_of_len8 hel heb
  · rw [hs]; exact leToU64_lt_of_len8 hsl hsb

/-! Behaviour of `process_settle_prediction` when every check passes. -/

theorem settle_success_eq
    {program_id : Pubkey} {pa ra oa : AccountInfo} {rest : List AccountInfo}
    {slot : Nat} {ps : PredictionState} {rs : RoomState}
    (hpo : pa.owner = program_id) (hro : ra.owner = program_id)
    (hdp : deserializePredictionState pa.data = some ps)
    (hdr : deserializeRoomState ra.data = some rs)
    (hres : ps.resolved = false) (hroom : ps.room = ra.key)
    (hslot : ps.expiry_slot ≤ slot) (hlen : 8 ≤ oa.data.length) :
    process_settle_prediction program_id (pa :: ra :: oa :: rest) slot =
      (none,
        { pa with data := serializePredictionState (
            { ps with won := decide (leToI64 (oa.data.take 8) ≥ ps.predicted_price),
                      resolved := true }) } :: ra :: oa :: rest) := by
  obtain ⟨hplen, hu, hr, _, _, _⟩ := deserializePredictionState_inv hdp
  have hul : ps.user.length = 32 := by rw [hu]; simp [hplen]
  have hrl : ps.room.length = 32 := by rw [hr]; simp [hplen]
  have hdropNil : pa.data.drop 90 = [] := by
    apply List.drop_eq_nil_of_le
    omega
  have hserlen :
      (serializePredictionState
        { ps with won := decide (leToI64 (oa.data.take 8) ≥ ps.predicted_price),
                  resolved := true }).length = 90 := by
    rw [serializePredictionState_length]
    simp [hul, hrl]
  simp only [process_settle_prediction]
  rw [if_neg (by simp [hpo, hro]), hdp, hdr]
  simp only [hres, Bool.false_eq_true, if_false]
  rw [if_neg (by simp [hroom]), if_neg (Nat.not_lt.mpr hslot), if_neg (Nat.not_lt.mpr hlen)]
  simp only [serAttempt, hserlen, hplen, le_refl, if_true, hdropNil, List.append_nil]

/-! Behaviour of `process_settle_prediction` on each failing check. -/

theorem settle_already_settled_eq
    {program_id : Pubkey} {pa ra oa : AccountInfo} {rest : List AccountInfo}
    {slot : Nat} {ps : PredictionState} {rs : RoomState}
    (hpo : pa.owner = program_id) (hro : ra.owner = program_id)
    (hdp : deserializePredictionState pa.data = some ps)
    (hdr : deserializeRoomState ra.data = some rs)
    (hres : ps.resolved = true) :
    process_settle_prediction program_id (pa :: ra :: oa :: rest) slot =
      (some (pcErr .AlreadySettled), pa :: ra :: oa :: rest) := by
  simp only [process_settle_prediction]
  rw [if_neg (by simp [hpo, hro]), hdp, hdr]
  simp [hres]

theorem settle_invalid_room_eq
    {program_id : Pubkey} {pa ra oa : AccountInfo} {rest : List AccountInfo}
    {slot : Nat} {ps : PredictionState} {rs : RoomState}
    (hpo : pa.owner = program_id) (hro : ra.owner = program_id)
    (hdp : deserializePredictionState pa.data = some ps)
    (hdr : deserializeRoomState ra.data = some rs)
    (hres : ps.resolved = false) (hroom : ps.room ≠ ra.key) :
    process_settle_prediction program_id (pa :: ra :: oa :: rest) slot =
      (some (pcErr .InvalidRoom), pa :: ra :: oa :: rest) := by
  simp only [process_settle_prediction]
  rw [if_neg (by simp [hpo, hro]), hdp, hdr]
  simp only [hres, Bool.false_eq_true, if_false]
  rw [if_pos hroom]

theorem settle_not_expired_eq
    {program_id : Pubkey} {pa ra oa : AccountInfo} {rest : List AccountInfo}
    {slot : Nat} {ps : PredictionState} {rs : RoomState}
    (hpo : pa.owner = program_id) (hro : ra.owner = program_id)
    (hdp : deserializePredictionState pa.data = some ps)
    (hdr : deserializeRoomState ra.data = some rs)
    (hres : ps.resolved = false) (hroom : ps.room = ra.key)
    (hslot : slot < ps.expiry_slot) :
    process_settle_prediction program_id (pa :: ra :: oa :: rest) slot =
      (some (pcErr .NotExpired), pa :: ra :: oa :: rest) := by
  simp only [process_settle_prediction]
  rw [if_neg (by simp [hpo, hro]), hdp, hdr]
  simp only [hres, Bool.false_eq_true, if_false]
  rw [if_neg (by simp [hroom]), if_pos hslot]

theorem settle_oracle_small_eq
    {program_id : Pubkey} {pa ra oa : AccountInfo} {rest : List AccountInfo}
    {slot : Nat} {ps : PredictionState} {rs : RoomState}
    (hpo : pa.owner = program_id) (hro : ra.owner = program_id)
    (hdp : deserializePredictionState pa.data = some ps)
    (hdr : deserializeRoomState ra.data = some rs)
    (hres : ps.resolved = false) (hroom : ps.room = ra.key)
    (hslot : ps.expiry_slot ≤ slot) (hlen : oa.data.length < 8) :
    process_settle_prediction program_id (pa :: ra :: oa :: rest) slot =
      (some (pcErr .OracleDataTooSmall), pa :: ra :: oa :: rest) := by
  simp only [process_settle_prediction]
  rw [if_neg (by simp [hpo, hro]), hdp, hdr]
  simp only [hres, Bool.false_eq_true, if_false]
  rw [if_neg (by simp [hroom]), if_neg (Nat.not_lt.mpr hslot), if_pos hlen]

theorem accountInfo_eta_nil {a : AccountInfo} (h : a.data = []) :
    ({ a with data := [] } : AccountInfo) = a := by
  cases a
  simp_all

theorem serializeRoomState_ne_nil (r : RoomState) : serializeRoomState r ≠ [] := by
  intro h
  have := serializeRoomState_length r
  rw [h] at this
  simp at this

theorem serializePredictionState_ne_nil (p : PredictionState) :
    serializePredictionState p ≠ [] := by
  intro h
  have := serializePredictionState_length p
  rw [h] at this
  simp at this

theorem serAttempt_nil {src : List Nat} (h : src ≠ []) :
    serAttempt src [] = (some .BorshIoError, []) := by
  have hp : 0 < src.length := List.length_pos.mpr h
  unfold serAttempt
  rw [if_neg (by simp only [List.length_nil]; omega)]
  simp

/-- Claim C2: whenever any of the three instruction handlers returns an error,
the returned account state is exactly the input account state: every
validation check happens before any write, and the one write that can fail
(serializing into a zero-length buffer) copies no bytes, so no partial state
is ever persisted on a failing path. -/
theorem claim_C2_error_no_write :
    ∀ (program_id : Pubkey) (accounts : List AccountInfo) (o m v : Pubkey)
      (b : Nat) (pp : Int) (es st slot : Nat) (e : ProgError),
      ((process_initialize_room program_id accounts o m v b).1 = some e →
        (process_initialize_room program_id accounts o m v b).2 = accounts) ∧
      ((process_stake_and_commit program_id accounts pp es st).1 = some e →
        (process_stake_and_commit program_id accounts pp es st).2 = accounts) ∧
      ((process_settle_prediction program_id accounts slot).1 = some e →
        (process_settle_prediction program_id accounts slot).2 = accounts) := by
  intro pid accounts o m v b pp es st slot e
  refine ⟨?_, ?_, ?_⟩
  · rcases accounts with _ | ⟨ra, accounts⟩
    · intro _
      rfl
    rcases accounts with _ | ⟨auth, rest⟩
    · intro _
      rfl
    simp only [process_initialize_room]
    by_cases h1 : ra.owner ≠ pid
    · rw [if_pos h1]
      intro _
      rfl
    rw [if_neg h1]
    rcases hD : ra.data with _ | ⟨x, xs⟩
    · intro _
      simp only [hD, List.isEmpty_nil, Bool.not_true, Bool.false_eq_true, if_false]
      rw [serAttempt_nil (serializeRoomState_ne_nil _)]
      simp [accountInfo_eta_nil hD]
    · simp [hD]
  · rcases accounts with _ | ⟨pda, accounts⟩
    · intro _
      rfl
    rcases accounts with _ | ⟨usr, accounts⟩
    · intro _
      rfl
    rcases accounts with _ | ⟨ra, rest⟩
    · intro _
      rfl
    simp only [process_stake_and_commit]
    by_cases h1 : pda.owner ≠ pid
    · rw [if_pos h1]
      intro _
      rfl
    rw [if_neg h1]
    by_cases h2 : ra.owner ≠ pid
    · rw [if_pos h2]
      intro _
      rfl
    rw [if_neg h2]
    rcases hD : pda.data with _ | ⟨x, xs⟩
    · simp only [hD, List.isEmpty_nil, Bool.not_true, Bool.false_eq_true, if_false]
      rcases hR : deserializeRoomState ra.data with _ | rs
      · simp only [hR]
        intro _
        trivial
      · simp only [hR]
        intro _
        rw [serAttempt_nil (serializePredictionState_ne_nil _)]
        simp [accountInfo_eta_nil hD]
    · simp [hD]
  · rcases accounts with _ | ⟨pa, accounts⟩
    · intro _
      rfl
    rcases accounts with _ | ⟨ra, accounts⟩
    · intro _
      rfl
    rcases accounts with _ | ⟨oa, rest⟩
    · intro _
      rfl
    simp only [process_settle_prediction]
    by_cases h1 : pa.owner ≠ pid ∨ ra.owner ≠ pid
    · rw [if_pos h1]
      intro _
      rfl
    rw [if_neg h1]
    rcases hP : deserializePredictionState pa.data with _ | ps
    · simp only [hP]
      intro _
      trivial
    simp only [hP]
    rcases hR : deserializeRoomState ra.data with _ | rs
    · simp only [hR]
      intro _
      trivial
    simp only [hR]
    by_cases hres : ps.resolved = true
    · rw [if_pos hres]
      intro _
      rfl
    rw [if_neg hres]
    by_cases hroom : ps.room ≠ ra.key
    · rw [if_pos hroom]
      intro _
      rfl
    rw [if_neg hroom]
    by_cases hslot : slot < ps.expiry_slot
    · rw [if_pos hslot]
      intro _
      rfl
    rw [if_neg hslot]
    by_cases hlen : oa.data.length < 8
    · rw [if_pos hlen]
      intro _
      rfl
    rw [if_neg hlen]
    obtain ⟨hplen, hu, hr, _, _, _⟩ := deserializePredictionState_inv hP
    have hul : ps.user.length = 32 := by rw [hu]; simp [hplen]
    have hrl : ps.room.length = 32 := by rw [hr]; simp [hplen]
    have hok : (serializePredictionState (
        { ps with won := decide (leToI64 (oa.data.take 8) ≥ ps.predicted_price),
                  resolved := true })).length ≤ pa.data.length := by
      rw [serializePredictionState_length, hplen]
      simp [hul, hrl]
    simp only [serAttempt]
    rw [if_pos hok]
    intro hcontr
    exact absurd hcontr (by simp)


/-! Decidability of the validity predicates, and concrete sample data used by
the closed evaluation theorems. -/

instance (k : Pubkey) : Decidable (PkValid k) := by
  unfold PkValid
  infer_instance

instance (r : RoomState) : Decidable r.Valid := by
  unfold RoomState.Valid
  infer_instance

instance (p : PredictionState) : Decidable p.Valid := by
  unfold PredictionState.Valid
  infer_instance

instance (bs : List Nat) : Decidable (ByteListValid bs) := by
  unfold ByteListValid
  infer_instance

def kProg : Pubkey := List.replicate 32 9
def kUser : Pubkey := List.replicate 32 1
def kRoomAddr : Pubkey := List.replicate 32 2
def kAuth : Pubkey := List.replicate 32 3
def kFeed : Pubkey := List.replicate 32 4
def kMint : Pubkey := List.replicate 32 5
def kVault : Pubkey := List.replicate 32 6
def kOracleAddr : Pubkey := List.replicate 32 7
def kPredAddr : Pubkey := List.replicate 32 8
def kOther : Pubkey := List.replicate 32 11

def sampleRoom : RoomState :=
  { authority := kAuth, oracle_feed := kFeed, staking_mint := kMint,
    stake_vault := kVault, bump := 254 }

def samplePrediction : PredictionState :=
  { user := kUser, room := kRoomAddr, predicted_price := 30000,
    expiry_slot := 100, stake := 500, resolved := false, won := false }

def samplePredictionResolved : PredictionState :=
  { samplePrediction with resolved := true, won := true }

def paSample : AccountInfo :=
  { key := kPredAddr, owner := kProg, data := serializePredictionState samplePrediction }

def raSample : AccountInfo :=
  { key := kRoomAddr, owner := kProg, data := serializeRoomState sampleRoom }

def oaSample : AccountInfo :=
  { key := kOracleAddr, owner := kOther, data := u64ToLe 35000 }

def paResolved : AccountInfo :=
  { key := kPredAddr, owner := kProg,
    data := serializePredictionState samplePredictionResolved }

/-- Claim C1: when every prior settlement check passes, settlement succeeds and
the persisted Prediction decodes back with `resolved = true` and `won` exactly
the truth of `observed_price >= predicted_price`, where `observed_price` is the
little-endian signed 64-bit integer in the oracle buffer's first 8 bytes; in
particular the tie `observed_price = predicted_price` gives `won = true` and
every strictly smaller observed price gives `won = false`. -/
theorem claim_C1_settle_won
    {program_id : Pubkey} {pa ra oa : AccountInfo} {rest : List AccountInfo}
    {slot : Nat} {ps : PredictionState} {rs : RoomState}
    (hbytes : ByteListValid pa.data)
    (hpo : pa.owner = program_id) (hro : ra.owner = program_id)
    (hdp : deserializePredictionState pa.data = some ps)
    (hdr : deserializeRoomState ra.data = some rs)
    (hres : ps.resolved = false) (hroom : ps.room = ra.key)
    (hslot : ps.expiry_slot ≤ slot) (hlen : 8 ≤ oa.data.length) :
    ∃ newData : List Nat,
      process_settle_prediction program_id (pa :: ra :: oa :: rest) slot =
        (none, { pa with data := newData } :: ra :: oa :: rest) ∧
      ∃ ps' : PredictionState, deserializePredictionState newData = some ps' ∧
        ps'.resolved = true ∧
        (ps'.won = true ↔ ps.predicted_price ≤ leToI64 (oa.data.take 8)) ∧
        (leToI64 (oa.data.take 8) < ps.predicted_price → ps'.won = false) := by
  have hval : ps.Valid := deserializePredictionState_valid hbytes hdp
  refine ⟨serializePredictionState (
      { ps with won := decide (leToI64 (oa.data.take 8) ≥ ps.predicted_price),
                resolved := true }),
    settle_success_eq hpo hro hdp hdr hres hroom hslot hlen,
    { ps with won := decide (leToI64 (oa.data.take 8) ≥ ps.predicted_price),
              resolved := true },
    deserialize_serialize_prediction ?_, rfl, ?_, ?_⟩
  · obtain ⟨a1, a2, a3, a4, a5, a6⟩ := hval
    exact ⟨a1, a2, a3, a4, a5, a6⟩
  · simp [ge_iff_le, decide_eq_true_iff]
  · intro hlt
    simp only [ge_iff_le, decide_eq_false_iff_not, not_le]
    exact hlt

/-- Claim C1 witness: Scenario A of the spec — predicted 30000, expiry 100,
slot 150, oracle bytes encoding 35000 — settles with `won = true`. -/
theorem claim_C1_witness :
    ∃ newData : List Nat,
      process_settle_prediction kProg (paSample :: raSample :: oaSample :: []) 150 =
        (none, { paSample with data := newData } :: raSample :: oaSample :: []) ∧
      ∃ ps' : PredictionState, deserializePredictionState newData = some ps' ∧
        ps'.resolved = true ∧
        (ps'.won = true ↔
          samplePrediction.predicted_price ≤ leToI64 (oaSample.data.take 8)) ∧
        (leToI64 (oaSample.data.take 8) < samplePrediction.predicted_price →
          ps'.won = false) :=
  claim_C1_settle_won (by decide) (by decide) (by decide)
    (show deserializePredictionState paSample.data = some samplePrediction by decide)
    (show deserializeRoomState raSample.data = some sampleRoom by decide)
    (by decide) (by decide) (by decide) (by decide)


def raForeign : AccountInfo :=
  { key := kRoomAddr, owner := kUser, data := serializeRoomState sampleRoom }

def raOther : AccountInfo :=
  { key := kOther, owner := kProg, data := serializeRoomState sampleRoom }

def oaShort : AccountInfo :=
  { key := kOracleAddr, owner := kOther, data := [1, 2, 3] }

/-- Claim C3 (amended): for a Prediction whose `resolved` field is true,
SettlePrediction fails with AlreadySettled and changes nothing, regardless of
the oracle input, the clock value and the decoded room contents, provided both
slots are program-owned and decode; and a settlement can only return success
when the stored Prediction had `resolved = false`, so `resolved` transitions
false→true at most once. -/
theorem claim_C3_already_settled
    {program_id : Pubkey} {pa ra oa : AccountInfo} {rest : List AccountInfo}
    {slot : Nat} {ps : PredictionState} {rs : RoomState}
    (hpo : pa.owner = program_id) (hro : ra.owner = program_id)
    (hdp : deserializePredictionState pa.data = some ps)
    (hdr : deserializeRoomState ra.data = some rs) :
    (ps.resolved = true →
      process_settle_prediction program_id (pa :: ra :: oa :: rest) slot =
        (some (pcErr .AlreadySettled), pa :: ra :: oa :: rest)) ∧
    ((process_settle_prediction program_id (pa :: ra :: oa :: rest) slot).1 = none →
      ps.resolved = false) := by
  constructor
  · intro hres
    exact settle_already_settled_eq hpo hro hdp hdr hres
  · intro hnone
    cases hcase : ps.resolved
    · rfl
    · rw [settle_already_settled_eq hpo hro hdp hdr hcase] at hnone
      simp at hnone

/-- Claim C3 witness: a concrete already-resolved Prediction fails with
AlreadySettled and leaves the accounts untouched. -/
theorem claim_C3_witness :
    (samplePredictionResolved.resolved = true →
      process_settle_prediction kProg (paResolved :: raSample :: oaSample :: []) 150 =
        (some (pcErr .AlreadySettled), paResolved :: raSample :: oaSample :: [])) ∧
    ((process_settle_prediction kProg
        (paResolved :: raSample :: oaSample :: []) 150).1 = none →
      samplePredictionResolved.resolved = false) :=
  claim_C3_already_settled (by decide) (by decide)
    (show deserializePredictionState paResolved.data = some samplePredictionResolved
      by decide)
    (show deserializeRoomState raSample.data = some sampleRoom by decide)

/-- Claim C3 counterexample: the failure is not independent of the room
account — a resolved Prediction settled against a room slot that is not
program-owned fails with InvalidOwner, not AlreadySettled. -/
theorem claim_C3_counterexample :
    deserializePredictionState paResolved.data = some samplePredictionResolved ∧
    samplePredictionResolved.resolved = true ∧
    (process_settle_prediction kProg
        (paResolved :: raForeign :: oaSample :: []) 150).1 =
      some (pcErr .InvalidOwner) ∧
    (process_settle_prediction kProg
        (paResolved :: raForeign :: oaSample :: []) 150).1 ≠
      some (pcErr .AlreadySettled) :=
  ⟨by decide, by decide, by decide, by decide⟩

/-- Claim C4: with ownership, decoding, the resolved check and the room-match
check passing, any clock slot strictly below `expiry_slot` fails with
NotExpired and changes nothing, and from `expiry_slot` onwards the NotExpired
branch is never taken. -/
theorem claim_C4_not_expired
    {program_id : Pubkey} {pa ra oa : AccountInfo} {rest : List AccountInfo}
    {ps : PredictionState} {rs : RoomState}
    (hpo : pa.owner = program_id) (hro : ra.owner = program_id)
    (hdp : deserializePredictionState pa.data = some ps)
    (hdr : deserializeRoomState ra.data = some rs)
    (hres : ps.resolved = false) (hroom : ps.room = ra.key) :
    (∀ slot, slot < ps.expiry_slot →
      process_settle_prediction program_id (pa :: ra :: oa :: rest) slot =
        (some (pcErr .NotExpired), pa :: ra :: oa :: rest)) ∧
    (∀ slot, ps.expiry_slot ≤ slot →
      (process_settle_prediction program_id (pa :: ra :: oa :: rest) slot).1 ≠
        some (pcErr .NotExpired)) := by
  constructor
  · intro slot hslot
    exact settle_not_expired_eq hpo hro hdp hdr hres hroom hslot
  · intro slot hslot
    by_cases hlen : oa.data.length < 8
    · rw [settle_oracle_small_eq hpo hro hdp hdr hres hroom hslot hlen]
      simp [pcErr, PredictChatError.toU32]
    · rw [settle_success_eq hpo hro hdp hdr hres hroom hslot (Nat.not_lt.mp hlen)]
      simp

/-- Claim C4 witness: Scenario C of the spec — slot 50 before expiry 100 fails
with NotExpired and changes nothing; at slot 150 the NotExpired branch is not
taken. -/
theorem claim_C4_witness :
    (process_settle_prediction kProg (paSample :: raSample :: oaSample :: []) 50 =
      (some (pcErr .NotExpired), paSample :: raSample :: oaSample :: [])) ∧
    (process_settle_prediction kProg (paSample :: raSample :: oaSample :: []) 150).1 ≠
      some (pcErr .NotExpired) := by
  have h : (∀ slot, slot < samplePrediction.expiry_slot →
      process_settle_prediction kProg (paSample :: raSample :: oaSample :: []) slot =
        (some (pcErr .NotExpired), paSample :: raSample :: oaSample :: [])) ∧
      (∀ slot, samplePrediction.expiry_slot ≤ slot →
        (process_settle_prediction kProg
          (paSample :: raSample :: oaSample :: []) slot).1 ≠
          some (pcErr .NotExpired)) :=
    claim_C4_not_expired (by decide) (by decide)
      (show deserializePredictionState paSample.data = some samplePrediction by decide)
      (show deserializeRoomState raSample.data = some sampleRoom by decide)
      (by decide) (by decide)
  exact ⟨h.1 50 (by decide), h.2 150 (by decide)⟩

/-- Claim C5: an unresolved Prediction whose stored `room` reference differs
from the supplied room slot's address fails with InvalidRoom and changes
nothing, for every clock value and every oracle account. -/
theorem claim_C5_invalid_room
    {program_id : Pubkey} {pa ra : AccountInfo} {rest : List AccountInfo}
    {ps : PredictionState} {rs : RoomState}
    (hpo : pa.owner = program_id) (hro : ra.owner = program_id)
    (hdp : deserializePredictionState pa.data = some ps)
    (hdr : deserializeRoomState ra.data = some rs)
    (hres : ps.resolved = false) (hmismatch : ps.room ≠ ra.key) :
    ∀ (oa : AccountInfo) (slot : Nat),
      process_settle_prediction program_id (pa :: ra :: oa :: rest) slot =
        (some (pcErr .InvalidRoom), pa :: ra :: oa :: rest) := by
  intro oa slot
  exact settle_invalid_room_eq hpo hro hdp hdr hres hmismatch

/-- Claim C5 witness: a Prediction bound to one room address, settled against a
program-owned room slot at a different address, fails with InvalidRoom. -/
theorem claim_C5_witness :
    process_settle_prediction kProg (paSample :: raOther :: oaSample :: []) 150 =
      (some (pcErr .InvalidRoom), paSample :: raOther :: oaSample :: []) :=
  claim_C5_invalid_room (by decide) (by decide)
    (show deserializePredictionState paSample.data = some samplePrediction by decide)
    (show deserializeRoomState raOther.data = some sampleRoom by decide)
    (by decide) (by decide) oaSample 150

/-- Claim C6: with every earlier settlement check passing, an oracle buffer of
fewer than 8 bytes — whatever those bytes are — fails with OracleDataTooSmall
and changes nothing, so the 8-byte price read is never reached on such
buffers. -/
theorem claim_C6_oracle_too_small
    {program_id : Pubkey} {pa ra oa : AccountInfo} {rest : List AccountInfo}
    {slot : Nat} {ps : PredictionState} {rs : RoomState}
    (hpo : pa.owner = program_id) (hro : ra.owner = program_id)
    (hdp : deserializePredictionState pa.data = some ps)
    (hdr : deserializeRoomState ra.data = some rs)
    (hres : ps.resolved = false) (hroom : ps.room = ra.key)
    (hslot : ps.expiry_slot ≤ slot) (hshort : oa.data.length < 8) :
    process_settle_prediction program_id (pa :: ra :: oa :: rest) slot =
      (some (pcErr .OracleDataTooSmall), pa :: ra :: oa :: rest) :=
  settle_oracle_small_eq hpo hro hdp hdr hres hroom hslot hshort

/-- Claim C6 witness: a 3-byte oracle buffer fails with OracleDataTooSmall. -/
theorem claim_C6_witness :
    process_settle_prediction kProg (paSample :: raSample :: oaShort :: []) 150 =
      (some (pcErr .OracleDataTooSmall), paSample :: raSample :: oaShort :: []) :=
  claim_C6_oracle_too_small (by decide) (by decide)
    (show deserializePredictionState paSample.data = some samplePrediction by decide)
    (show deserializeRoomState raSample.data = some sampleRoom by decide)
    (by decide) (by decide) (by decide) (by decide)

/-- Claim C7: for every representable RoomState and PredictionState value,
deserializing the serialized bytes yields the value back (borsh round-trip for
both persisted entities). -/
theorem claim_C7_roundtrip :
    ∀ (r : RoomState) (p : PredictionState), r.Valid → p.Valid →
      deserializeRoomState (serializeRoomState r) = some r ∧
      deserializePredictionState (serializePredictionState p) = some p :=
  fun _ _ hr hp =>
    ⟨deserialize_serialize_room hr, deserialize_serialize_prediction hp⟩

/-- Claim C7 witness: round-trip on a concrete Room and Prediction. -/
theorem claim_C7_witness :
    deserializeRoomState (serializeRoomState sampleRoom) = some sampleRoom ∧
    deserializePredictionState (serializePredictionState samplePrediction) =
      some samplePrediction :=
  claim_C7_roundtrip sampleRoom samplePrediction (by decide) (by decide)


/-- Claim C2 witness: three concrete failing calls (AlreadyInitialized,
InvalidOwner, AlreadySettled) each leave the account list unchanged. -/
theorem claim_C2_witness :
    (process_initialize_room kProg (paResolved :: raSample :: oaSample :: [])
        kFeed kMint kVault 254).2 = paResolved :: raSample :: oaSample :: [] ∧
    (process_stake_and_commit kProg (paResolved :: raSample :: oaSample :: [])
        30000 100 500).2 = paResolved :: raSample :: oaSample :: [] ∧
    (process_settle_prediction kProg (paResolved :: raSample :: oaSample :: [])
        150).2 = paResolved :: raSample :: oaSample :: [] :=
  ⟨(claim_C2_error_no_write kProg (paResolved :: raSample :: oaSample :: [])
      kFeed kMint kVault 254 30000 100 500 150
      (pcErr .AlreadyInitialized)).1 (by decide),
   (claim_C2_error_no_write kProg (paResolved :: raSample :: oaSample :: [])
      kFeed kMint kVault 254 30000 100 500 150
      (pcErr .InvalidOwner)).2.1 (by decide),
   (claim_C2_error_no_write kProg (paResolved :: raSample :: oaSample :: [])
      kFeed kMint kVault 254 30000 100 500 150
      (pcErr .AlreadySettled)).2.2 (by decide)⟩

/-- Claim C8 is contradicted by the code: StakeAndCommit never succeeds, on any
input.  To get past the AlreadyInitialized check the prediction slot must have
a zero-length buffer, and serializing the 90-byte Prediction into that
zero-length buffer then fails with a borsh I/O error, so a Prediction is never
written. -/
theorem claim_C8_stake_never_succeeds :
    ∀ (program_id : Pubkey) (accounts : List AccountInfo) (predicted_price : Int)
      (expiry_slot stake : Nat),
      ((process_stake_and_commit program_id accounts predicted_price
          expiry_slot stake).1).isSome = true := by
  intro pid accounts pp es st
  rcases accounts with _ | ⟨pda, accounts⟩
  · rfl
  rcases accounts with _ | ⟨usr, accounts⟩
  · rfl
  rcases accounts with _ | ⟨ra, rest⟩
  · rfl
  simp only [process_stake_and_commit]
  by_cases h1 : pda.owner ≠ pid
  · rw [if_pos h1]
    rfl
  rw [if_neg h1]
  by_cases h2 : ra.owner ≠ pid
  · rw [if_pos h2]
    rfl
  rw [if_neg h2]
  rcases hD : pda.data with _ | ⟨x, xs⟩
  · simp only [hD, List.isEmpty_nil, Bool.not_true, Bool.false_eq_true, if_false]
    rcases hR : deserializeRoomState ra.data with _ | rs
    · simp only [hR]
      rfl
    · simp only [hR]
      rw [serAttempt_nil (serializePredictionState_ne_nil _)]
      rfl
  · simp [hD]

/-- Claim C9 is contradicted by the code: InitializeRoom never succeeds, on any
input.  A slot with data is rejected as AlreadyInitialized, and an empty slot
has a zero-length buffer into which the 129-byte Room cannot be serialized, so
the write always fails with a borsh I/O error. -/
theorem claim_C9_initialize_never_succeeds :
    ∀ (program_id : Pubkey) (accounts : List AccountInfo)
      (oracle_feed staking_mint stake_vault : Pubkey) (bump : Nat),
      ((process_initialize_room program_id accounts oracle_feed staking_mint
          stake_vault bump).1).isSome = true := by
  intro pid accounts o m v b
  rcases accounts with _ | ⟨ra, accounts⟩
  · rfl
  rcases accounts with _ | ⟨auth, rest⟩
  · rfl
  simp only [process_initialize_room]
  by_cases h1 : ra.owner ≠ pid
  · rw [if_pos h1]
    rfl
  rw [if_neg h1]
  rcases hD : ra.data with _ | ⟨x, xs⟩
  · simp only [hD, List.isEmpty_nil, Bool.not_true, Bool.false_eq_true, if_false]
    rw [serAttempt_nil (serializeRoomState_ne_nil _)]
    rfl
  · simp [hD]

/-- Claim C10: settlement never compares the oracle account's address with the
Room's stored `oracle_feed`: under the other passing checks it succeeds for an
oracle account at any address, and two calls that differ only in the oracle
account's address but carry identical oracle bytes return the same outcome and
write the same prediction bytes. -/
theorem claim_C10_oracle_key_ignored
    {program_id : Pubkey} {pa ra : AccountInfo} {rest : List AccountInfo}
    {slot : Nat} {ps : PredictionState} {rs : RoomState}
    (okey okey' oowner : Pubkey) (odata : List Nat)
    (hpo : pa.owner = program_id) (hro : ra.owner = program_id)
    (hdp : deserializePredictionState pa.data = some ps)
    (hdr : deserializeRoomState ra.data = some rs)
    (hres : ps.resolved = false) (hroom : ps.room = ra.key)
    (hslot : ps.expiry_slot ≤ slot) (hlen : 8 ≤ odata.length) :
    (process_settle_prediction program_id
        (pa :: ra :: AccountInfo.mk okey oowner odata :: rest) slot).1 = none ∧
    (process_settle_prediction program_id
        (pa :: ra :: AccountInfo.mk okey oowner odata :: rest) slot).1 =
      (process_settle_prediction program_id
        (pa :: ra :: AccountInfo.mk okey' oowner odata :: rest) slot).1 ∧
    ((process_settle_prediction program_id
        (pa :: ra :: AccountInfo.mk okey oowner odata :: rest) slot).2.head?).map
        AccountInfo.data =
      ((process_settle_prediction program_id
        (pa :: ra :: AccountInfo.mk okey' oowner odata :: rest) slot).2.head?).map
        AccountInfo.data := by
  have h1 := @settle_success_eq program_id pa ra (AccountInfo.mk okey oowner odata)
    rest slot ps rs hpo hro hdp hdr hres hroom hslot hlen
  have h2 := @settle_success_eq program_id pa ra (AccountInfo.mk okey' oowner odata)
    rest slot ps rs hpo hro hdp hdr hres hroom hslot hlen
  rw [h1, h2]
  simp

/-- Claim C10 witness: with the oracle account at an address different from the
Room's `oracle_feed`, settlement still succeeds, and moving the same bytes to
the `oracle_feed` address changes nothing in the outcome. -/
theorem claim_C10_witness :
    (process_settle_prediction kProg
        (paSample :: raSample :: AccountInfo.mk kOther kOther (u64ToLe 35000) :: [])
        150).1 = none ∧
    (process_settle_prediction kProg
        (paSample :: raSample :: AccountInfo.mk kOther kOther (u64ToLe 35000) :: [])
        150).1 =
      (process_settle_prediction kProg
        (paSample :: raSample :: AccountInfo.mk kFeed kOther (u64ToLe 35000) :: [])
        150).1 ∧
    ((process_settle_prediction kProg
        (paSample :: raSample :: AccountInfo.mk kOther kOther (u64ToLe 35000) :: [])
        150).2.head?).map AccountInfo.data =
      ((process_settle_prediction kProg
        (paSample :: raSample :: AccountInfo.mk kFeed kOther (u64ToLe 35000) :: [])
        150).2.head?).map AccountInfo.data :=
  claim_C10_oracle_key_ignored kOther kFeed kOther (u64ToLe 35000)
    (by decide) (by decide)
    (show deserializePredictionState paSample.data = some samplePrediction by decide)
    (show deserializeRoomState raSample.data = some sampleRoom by decide)
    (by decide) (by decide) (by decide) (by decide)

end PredictChat



